import Mathlib

/-!
Shallow embedding of the Workspace State Synchronization Engine of the
Workspace-Extension repository (src/background.js).

The background script keeps four pieces of in-memory state (the workspace
registry `workspaceIndex`, the local window-binding table `windowBindings`,
the `settings` object and the per-workspace debounce map `saveTimers`) and
persists snapshots (tab-descriptor sequences, a version counter and a content
hash) through an opaque storage layer.  Here JavaScript objects keyed by
window id / workspace id become association lists, the browser's window/tab
surface becomes an explicit list of live windows, and each operation is a
pure function from engine state to engine state, additionally emitting the
ordered trace of store writes and host effects it issues.

The shared helper files of the repository (shared/storage.js,
shared/utils.js, shared/constants.js) are not part of the provided sources;
the definitions whose doc comments start with "Modelled from the spec:"
reconstruct those leaves from the specification's description of them.
-/

namespace WorkspaceExt

/-- A persisted tab descriptor: url `u`, optional title `t`, pinned flag `p`
(the compact record produced by `createTabDescriptor` and stored in the
snapshot store). -/
structure TabDescriptor where
  u : String
  t : Option String
  p : Bool
deriving DecidableEq, Repr

/-- A live browser tab as reported by the host's tab API. -/
structure LiveTab where
  id : Nat
  url : String
  title : String
  pinned : Bool
deriving DecidableEq, Repr

/-- A live browser window: host-assigned integer id plus its ordered tabs. -/
structure Window where
  id : Nat
  tabs : List LiveTab
deriving DecidableEq, Repr

/-- A workspace registry record (metadata only, no tab contents). -/
structure WorkspaceRec where
  id : String
  name : String
  color : String
  pinned : Bool
  archived : Bool
  createdAt : Nat
  updatedAt : Nat
  tabCount : Nat
deriving DecidableEq, Repr

/-- Lookup in an association list (a JavaScript object keyed by `κ`). -/
def alGet {κ α : Type} [DecidableEq κ] : List (κ × α) → κ → Option α
  | [], _ => none
  | p :: rest, k => if p.1 = k then some p.2 else alGet rest k

/-- Key update in an association list: replace the first entry with the key
in place, or append a fresh entry (JavaScript object assignment, which keeps
insertion order). -/
def alSet {κ α : Type} [DecidableEq κ] : List (κ × α) → κ → α → List (κ × α)
  | [], k, v => [(k, v)]
  | p :: rest, k, v => if p.1 = k then (k, v) :: rest else p :: alSet rest k v

/-- Key deletion in an association list (JavaScript `delete obj[k]`). -/
def alRemove {κ α : Type} [DecidableEq κ] (m : List (κ × α)) (k : κ) : List (κ × α) :=
  m.filter (fun p => p.1 ≠ k)

theorem alGet_alSet_self {κ α : Type} [DecidableEq κ] (m : List (κ × α)) (k : κ) (v : α) :
    alGet (alSet m k v) k = some v := by
  induction m with
  | nil => simp [alGet, alSet]
  | cons p rest ih =>
    by_cases h : p.1 = k
    · simp [alSet, alGet, h]
    · simp [alSet, alGet, h, ih]

theorem alGet_alSet_ne {κ α : Type} [DecidableEq κ] (m : List (κ × α)) (k k' : κ) (v : α)
    (h : k' ≠ k) : alGet (alSet m k v) k' = alGet m k' := by
  induction m with
  | nil => simp [alGet, alSet, Ne.symm h]
  | cons p rest ih =>
    by_cases hp : p.1 = k
    · have hpk' : ¬p.1 = k' := by rw [hp]; exact Ne.symm h
      simp [alSet, alGet, hp, Ne.symm h, hpk']
    · by_cases hp' : p.1 = k'
      · simp [alSet, alGet, hp, hp', h]
      · simp [alSet, alGet, hp, hp', ih]

theorem mem_alSet {κ α : Type} [DecidableEq κ] {m : List (κ × α)} {k : κ} {v : α}
    {p : κ × α} (h : p ∈ alSet m k v) : p = (k, v) ∨ p ∈ m := by
  induction m with
  | nil => simpa [alSet] using h
  | cons q rest ih =>
    by_cases hq : q.1 = k
    · simp only [alSet, if_pos hq, List.mem_cons] at h
      rcases h with h | h
      · exact Or.inl h
      · exact Or.inr (List.mem_cons_of_mem _ h)
    · simp only [alSet, if_neg hq, List.mem_cons] at h
      rcases h with h | h
      · exact Or.inr (h ▸ List.mem_cons_self _ _)
      · rcases ih h with h' | h'
        · exact Or.inl h'
        · exact Or.inr (List.mem_cons_of_mem _ h')

theorem alSet_keys_nodup {κ α : Type} [DecidableEq κ] (m : List (κ × α)) (k : κ) (v : α)
    (h : (m.map Prod.fst).Nodup) : ((alSet m k v).map Prod.fst).Nodup := by
  induction m with
  | nil => simp [alSet]
  | cons p rest ih =>
    by_cases hp : p.1 = k
    · simpa [alSet, hp] using h
    · simp only [List.map_cons, List.nodup_cons] at h
      have hrest := ih h.2
      simp only [alSet, if_neg hp, List.map_cons, List.nodup_cons]
      refine ⟨?_, hrest⟩
      intro hmem
      rcases List.mem_map.mp hmem with ⟨q, hq, hfst⟩
      rcases mem_alSet hq with hq' | hq'
      · exact hp (by rw [hq'] at hfst; exact hfst.symm ▸ rfl)
      · exact h.1 (List.mem_map.mpr ⟨q, hq', hfst⟩)

/-- Character-level string prefix test (behaviourally `String.startsWith`,
stated over the character lists so that it evaluates by reduction). -/
def strStartsWith (s pre : String) : Bool :=
  pre.data.isPrefixOf s.data

/-- Modelled from the spec: the Exclusion Policy, a pure predicate on urls —
internal/privileged/non-restorable schemes and empty urls are never captured
(`shouldExcludeUrl` lives in the repository's shared/utils.js, which is not
among the provided sources). -/
def shouldExcludeUrl (url : String) : Bool :=
  url == "" || strStartsWith url "about:" || strStartsWith url "moz-extension:" ||
    strStartsWith url "chrome:" || strStartsWith url "view-source:"

/-- Modelled from the spec: the Tab Descriptor Codec's encode direction —
copies url, title and pinned flag of a live tab into a compact record
(`createTabDescriptor` lives in shared/utils.js, not provided). -/
def createTabDescriptor (tab : LiveTab) : TabDescriptor :=
  { u := tab.url, t := some tab.title, p := tab.pinned }

/-- Modelled from the spec: deterministic, order-sensitive serialization of a
descriptor (standing in for the source's `JSON.stringify`); two descriptor
sequences that are equal serialize identically. -/
def serializeDescriptor (d : TabDescriptor) : String :=
  "u=" ++ d.u ++ ";t=" ++ d.t.getD "" ++ ";p=" ++ (if d.p then "1" else "0") ++ ";"

/-- Modelled from the spec: the Content Fingerprint's underlying
non-cryptographic string hash (`quickHash` in shared/utils.js, not
provided); only its determinism matters to the engine. -/
def quickHash (s : String) : Nat :=
  s.data.foldl (fun h c => (h * 31 + c.toNat) % 4294967296) 5381

/-- The content fingerprint of an ordered descriptor sequence, as computed by
`saveWorkspaceSnapshot`: hash of the serialized sequence. -/
def fingerprintOf (ds : List TabDescriptor) : Nat :=
  quickHash (String.join (ds.map serializeDescriptor))

/-- The full in-memory and persisted state visible to the background script:
registry, binding table, debounce slots, the live windows of the host, the
three per-workspace keys of the snapshot store, and the three settings flags. -/
structure EngineState where
  workspaceIndex : List WorkspaceRec
  windowBindings : List (Nat × String)
  saveTimers : List (String × Nat)
  windows : List Window
  tabsOf : List (String × List TabDescriptor)
  versionOf : List (String × Nat)
  hashOf : List (String × Nat)
  autoSave : Bool
  includePinnedTabs : Bool
  focusExistingWindow : Bool
deriving DecidableEq, Repr

/-- Modelled from the spec: `Storage.getWorkspaceTabs` — the stored
descriptor sequence of a workspace, empty when the key is absent. -/
def getTabsOf (st : EngineState) (workspaceId : String) : List TabDescriptor :=
  (alGet st.tabsOf workspaceId).getD []

/-- Modelled from the spec: `Storage.getWorkspaceVersion` — the stored
version counter, `0` before the first persisted write (versions start at 1
on the first write). -/
def getVersionOf (st : EngineState) (workspaceId : String) : Nat :=
  (alGet st.versionOf workspaceId).getD 0

/-- Modelled from the spec: `Storage.getLastHash` — the stored fingerprint of
a workspace, absent before the first capture write. -/
def getHashOf (st : EngineState) (workspaceId : String) : Option Nat :=
  alGet st.hashOf workspaceId

/-- The live tabs of a window (`browser.tabs.query -l.p.b. windowId`), in
browser-reported order; empty for an unknown window. -/
def queryTabs (st : EngineState) (windowId : Nat) : List LiveTab :=
  ((st.windows.find? (fun w => w.id == windowId)).map Window.tabs).getD []

/-- A store write or host effect, in the order the background script issues
them; used to state trace-level properties (which writes an operation
performs, and in which order). -/
inductive Effect where
  | writeTabs (workspaceId : String) (tabs : List TabDescriptor) (version : Nat)
  | writeHash (workspaceId : String) (hash : Nat)
  | writeBindings (bindings : List (Nat × String))
  | writeIndex (index : List WorkspaceRec)
  | physMoveTab (tabId : Nat) (toWindow : Nat)
  | physRemoveTab (tabId : Nat)
  | physCreateWindow (windowId : Nat)
  | focusWindow (windowId : Nat)
  | deleteWorkspaceData (workspaceId : String)
deriving DecidableEq, Repr

/-- Rewrite the first element satisfying `p` in place (the JavaScript idiom
`const x = list.find(p); mutate(x)` used on the in-memory registry). -/
def updateFirst {α : Type} (p : α → Bool) (f : α → α) : List α → List α
  | [] => []
  | x :: xs => if p x then f x :: xs else x :: updateFirst p f xs

/-- `handleTabChange` (src/background.js lines 82-98): on a window-mutation
event, if auto-save is off or the window is unbound, do nothing; otherwise
cancel any pending debounce timer for the bound workspace and arm a fresh one.
The armed slot records the window id taken from the event — the value the
`setTimeout` closure closes over. -/
def handleTabChange (windowId : Nat) (st : EngineState) : EngineState :=
  if !st.autoSave then st
  else
    match alGet st.windowBindings windowId with
    | none => st
    | some workspaceId =>
      { st with saveTimers := alSet st.saveTimers workspaceId windowId }

/-- The descriptor sequence `saveWorkspaceSnapshot` captures from a window:
live tabs filtered by the exclusion policy and the pinned-tab setting, then
encoded in browser-reported order. -/
def captureDescriptors (st : EngineState) (windowId : Nat) : List TabDescriptor :=
  (((queryTabs st windowId).filter (fun tab => !shouldExcludeUrl tab.url)).filter
      (fun tab => st.includePinnedTabs || !tab.pinned)).map createTabDescriptor

/-- The state after the write branch of `saveWorkspaceSnapshot` (lines
122-136): store the captured descriptors under version `current + 1`, store
the new hash, and, when the workspace is present in the registry, touch its
`updatedAt` and `tabCount`. -/
def snapshotWriteState (workspaceId : String) (windowId : Nat) (now : Nat)
    (st : EngineState) : EngineState :=
  { st with
    tabsOf := alSet st.tabsOf workspaceId (captureDescriptors st windowId),
    versionOf := alSet st.versionOf workspaceId (getVersionOf st workspaceId + 1),
    hashOf := alSet st.hashOf workspaceId (fingerprintOf (captureDescriptors st windowId)),
    workspaceIndex :=
      if (st.workspaceIndex.find? (fun ws => ws.id == workspaceId)).isSome then
        updateFirst (fun ws => ws.id == workspaceId)
          (fun ws =>
            { ws with updatedAt := now, tabCount := (captureDescriptors st windowId).length })
          st.workspaceIndex
      else st.workspaceIndex }

/-- The trace of store writes issued by the write branch of
`saveWorkspaceSnapshot`, in source order: tabs+version, then hash, then (when
the registry entry exists) the registry. -/
def snapshotWriteTrace (workspaceId : String) (windowId : Nat) (now : Nat)
    (st : EngineState) : List Effect :=
  [Effect.writeTabs workspaceId (captureDescriptors st windowId)
      (getVersionOf st workspaceId + 1),
   Effect.writeHash workspaceId (fingerprintOf (captureDescriptors st windowId))] ++
  (if (st.workspaceIndex.find? (fun ws => ws.id == workspaceId)).isSome then
    [Effect.writeIndex (updateFirst (fun ws => ws.id == workspaceId)
      (fun ws =>
        { ws with updatedAt := now, tabCount := (captureDescriptors st windowId).length })
      st.workspaceIndex)]
   else [])

/-- `saveWorkspaceSnapshot` (lines 103-142): capture the window's descriptor
sequence, compare its fingerprint with the stored one, and skip the write
entirely when they agree; otherwise perform the write branch. -/
def saveWorkspaceSnapshot (workspaceId : String) (windowId : Nat) (now : Nat)
    (st : EngineState) : EngineState × List Effect :=
  if getHashOf st workspaceId = some (fingerprintOf (captureDescriptors st windowId)) then
    (st, [])
  else
    (snapshotWriteState workspaceId windowId now st,
     snapshotWriteTrace workspaceId windowId now st)

/-- The firing of the debounce timer armed for `workspaceId`: the `setTimeout`
callback of line 95-97 runs `saveWorkspaceSnapshot` with the workspace id and
the window id recorded when the timer was armed (the fired slot itself is not
cleared by the source). -/
def fireSaveTimer (workspaceId : String) (now : Nat) (st : EngineState) :
    EngineState × List Effect :=
  match alGet st.saveTimers workspaceId with
  | none => (st, [])
  | some windowId => saveWorkspaceSnapshot workspaceId windowId now st

/-- Remove every live tab with the given id from every window (the host's
side of `browser.tabs.remove`, and the departure half of `browser.tabs.move`). -/
def removeTabEverywhere (tabId : Nat) (ws : List Window) : List Window :=
  ws.map (fun w => { w with tabs := w.tabs.filter (fun tb => tb.id != tabId) })

/-- `moveTabToWorkspace` (lines 248-269): when some window is bound to the
target workspace, physically move the tab to the end of that window;
otherwise append the tab's descriptor to the target's stored snapshot at
version `current + 1` (bypassing debounce and capture) and close the tab. -/
def moveTabToWorkspace (tab : LiveTab) (targetWorkspaceId : String) (st : EngineState) :
    EngineState × List Effect :=
  match st.windowBindings.find? (fun p => p.2 == targetWorkspaceId) with
  | some p =>
    let movedWindows :=
      (removeTabEverywhere tab.id st.windows).map
        (fun w => if w.id == p.1 then { w with tabs := w.tabs ++ [tab] } else w)
    ({ st with windows := movedWindows },
     [Effect.physMoveTab tab.id p.1])
  | none =>
    ({ st with
        tabsOf := alSet st.tabsOf targetWorkspaceId
          (getTabsOf st targetWorkspaceId ++ [createTabDescriptor tab]),
        versionOf := alSet st.versionOf targetWorkspaceId
          (getVersionOf st targetWorkspaceId + 1),
        windows := removeTabEverywhere tab.id st.windows },
     [Effect.writeTabs targetWorkspaceId
        (getTabsOf st targetWorkspaceId ++ [createTabDescriptor tab])
        (getVersionOf st targetWorkspaceId + 1),
      Effect.physRemoveTab tab.id])

/-- The request/response payloads of the messaging surface: each handler
returns the requested payload or a structured `error` object. -/
inductive HandlerResult where
  | workspaces (index : List WorkspaceRec) (bindings : List (Nat × String))
  | created (workspace : WorkspaceRec)
  | openedWindow (windowId : Nat)
  | success
  | pinnedState (pinned : Bool)
  | settingsPayload (autoSave includePinnedTabs focusExistingWindow : Bool)
  | usage (bytes : Nat)
  | currentWorkspace (workspace : Option WorkspaceRec)
  | error (reason : String)
deriving DecidableEq, Repr

/-- The `data` argument of `createWorkspace`. -/
structure CreateData where
  name : Option String
  color : Option String
  fromCurrentWindow : Bool
  windowId : Option Nat
deriving DecidableEq, Repr

/-- JavaScript `a || b` on an optional string: the default wins when the
value is absent or the empty string (falsy). -/
def jsOr (v : Option String) (dflt : String) : String :=
  match v with
  | some s => if s == "" then dflt else s
  | none => dflt

/-- Modelled from the spec: the generated default display name used when a
name is omitted (`getDefaultWorkspaceName` in shared/utils.js, not provided). -/
def getDefaultWorkspaceName (index : List WorkspaceRec) : String :=
  "Workspace " ++ toString (index.length + 1)

/-- Modelled from the spec: a color token from the fixed palette
(`getRandomColor` in shared/utils.js, not provided; the source picks one at
random, and no claim depends on which). -/
def getRandomColor : String := "#3B82F6"

/-- The JavaScript truthiness test `fromCurrentWindow && windowId` of line
342: the capture-from-window branch runs only when `fromCurrentWindow` is
set and `windowId` is present and nonzero. -/
def effectiveWindow (data : CreateData) : Option Nat :=
  if data.fromCurrentWindow then
    match data.windowId with
    | some n => if n == 0 then none else some n
    | none => none
  else none

/-- `createWorkspace` (lines 326-380): build the registry record (fresh id
and timestamps supplied by the host), either capture the source window's
eligible tabs — binding that window before any snapshot write — or seed a
default new-tab descriptor; then append the record to the registry and write
the snapshot at version 1.  The source saves the snapshot twice (the
duplicated line 374), so the trace carries two identical tab writes. -/
def createWorkspace (data : CreateData) (newId : String) (now : Nat) (st : EngineState) :
    EngineState × List Effect × HandlerResult :=
  match effectiveWindow data with
  | some windowId =>
    let tabs := captureDescriptors st windowId
    let workspace : WorkspaceRec :=
      { id := newId,
        name := jsOr data.name (getDefaultWorkspaceName st.workspaceIndex),
        color := jsOr data.color getRandomColor,
        pinned := false, archived := false,
        createdAt := now, updatedAt := now, tabCount := tabs.length }
    ({ st with
        windowBindings := alSet st.windowBindings windowId newId,
        workspaceIndex := st.workspaceIndex ++ [workspace],
        tabsOf := alSet st.tabsOf newId tabs,
        versionOf := alSet st.versionOf newId 1 },
     [Effect.writeBindings (alSet st.windowBindings windowId newId),
      Effect.writeIndex (st.workspaceIndex ++ [workspace]),
      Effect.writeTabs newId tabs 1,
      Effect.writeTabs newId tabs 1],
     HandlerResult.created workspace)
  | none =>
    let tabs : List TabDescriptor := [{ u := "about:newtab", t := some "New Tab", p := false }]
    let workspace : WorkspaceRec :=
      { id := newId,
        name := jsOr data.name (getDefaultWorkspaceName st.workspaceIndex),
        color := jsOr data.color getRandomColor,
        pinned := false, archived := false,
        createdAt := now, updatedAt := now, tabCount := 1 }
    ({ st with
        workspaceIndex := st.workspaceIndex ++ [workspace],
        tabsOf := alSet st.tabsOf newId tabs,
        versionOf := alSet st.versionOf newId 1 },
     [Effect.writeIndex (st.workspaceIndex ++ [workspace]),
      Effect.writeTabs newId tabs 1,
      Effect.writeTabs newId tabs 1],
     HandlerResult.created workspace)

/-- The default descriptor used when the pinned-restoration loop of
`openWorkspace` indexes past the stored sequence (it never does: the loop is
bounded by the minimum of both lengths). -/
def blankDescriptor : TabDescriptor := { u := "", t := none, p := false }

/-- The tabs of the window `openWorkspace` materializes (lines 404-433):
the stored urls that survive the exclusion filter (falling back to a single
new-tab url), with pinned flags re-applied positionally afterwards.
Host-assigned tab ids are modelled by position. -/
def openedWindowTabs (workspaceId : String) (st : EngineState) : List LiveTab :=
  let tabs := getTabsOf st workspaceId
  let urls0 := (tabs.map TabDescriptor.u).filter (fun url => url != "" && !shouldExcludeUrl url)
  let urls := if urls0.isEmpty then ["about:newtab"] else urls0
  urls.enum.map (fun p =>
    ({ id := p.1, url := p.2, title := "",
       pinned := (tabs.getD p.1 blankDescriptor).p } : LiveTab))

/-- The window-materialization tail of `openWorkspace` (lines 404-444):
create the window holding the restored tabs, add it to the host, and bind
its id to the workspace. -/
def openNewWindow (workspaceId : String) (newWinId : Nat) (st : EngineState) :
    EngineState × List Effect × HandlerResult :=
  let newBindings := alSet st.windowBindings newWinId workspaceId
  ({ st with
      windows := st.windows ++ [{ id := newWinId, tabs := openedWindowTabs workspaceId st }],
      windowBindings := newBindings },
   [Effect.physCreateWindow newWinId, Effect.writeBindings newBindings],
   HandlerResult.openedWindow newWinId)

/-- `openWorkspace` (lines 385-445): unknown ids get a structured not-found
error; when the workspace is already bound and `focusExistingWindow` is set,
focus that window if it still exists (the caught failure falls through to
opening a new one); otherwise materialize and bind a new window. -/
def openWorkspace (workspaceId : String) (newWinId : Nat) (st : EngineState) :
    EngineState × List Effect × HandlerResult :=
  match st.workspaceIndex.find? (fun ws => ws.id == workspaceId) with
  | none => (st, [], HandlerResult.error "Workspace not found")
  | some _ =>
    match st.windowBindings.find? (fun p => p.2 == workspaceId) with
    | some p =>
      if st.focusExistingWindow && st.windows.any (fun w => w.id == p.1) then
        (st, [Effect.focusWindow p.1], HandlerResult.openedWindow p.1)
      else openNewWindow workspaceId newWinId st
    | none => openNewWindow workspaceId newWinId st

/-- `deleteWorkspace` (lines 450-473): unknown ids get a structured error;
otherwise remove the registry entry (the source saves the registry twice,
lines 457-458), delete the workspace's stored data, and drop every binding
pointing at the workspace. -/
def deleteWorkspace (workspaceId : String) (st : EngineState) :
    EngineState × List Effect × HandlerResult :=
  match st.workspaceIndex.find? (fun ws => ws.id == workspaceId) with
  | none => (st, [], HandlerResult.error "Workspace not found")
  | some _ =>
    let newIndex := st.workspaceIndex.eraseP (fun ws => ws.id == workspaceId)
    let newBindings := st.windowBindings.filter (fun p => p.2 != workspaceId)
    ({ st with
        workspaceIndex := newIndex,
        windowBindings := newBindings,
        tabsOf := alRemove st.tabsOf workspaceId,
        versionOf := alRemove st.versionOf workspaceId,
        hashOf := alRemove st.hashOf workspaceId },
     [Effect.writeIndex newIndex, Effect.writeIndex newIndex,
      Effect.deleteWorkspaceData workspaceId, Effect.writeBindings newBindings],
     HandlerResult.success)

/-- `renameWorkspace` (lines 478-492): unknown ids get a structured error;
otherwise the found registry entry's name and `updatedAt` are rewritten in
place and the registry is saved.  The snapshot store is not touched. -/
def renameWorkspace (workspaceId name : String) (now : Nat) (st : EngineState) :
    EngineState × List Effect × HandlerResult :=
  match st.workspaceIndex.find? (fun ws => ws.id == workspaceId) with
  | none => (st, [], HandlerResult.error "Workspace not found")
  | some _ =>
    let newIndex := updateFirst (fun ws => ws.id == workspaceId)
      (fun ws => { ws with name := name, updatedAt := now }) st.workspaceIndex
    ({ st with workspaceIndex := newIndex },
     [Effect.writeIndex newIndex], HandlerResult.success)

/-- `toggleWorkspacePin` (lines 497-507). -/
def toggleWorkspacePin (workspaceId : String) (st : EngineState) :
    EngineState × List Effect × HandlerResult :=
  match st.workspaceIndex.find? (fun ws => ws.id == workspaceId) with
  | none => (st, [], HandlerResult.error "Workspace not found")
  | some ws =>
    let newIndex := updateFirst (fun w => w.id == workspaceId)
      (fun w => { w with pinned := !w.pinned }) st.workspaceIndex
    ({ st with workspaceIndex := newIndex },
     [Effect.writeIndex newIndex], HandlerResult.pinnedState (!ws.pinned))

/-- `getCurrentWorkspace` (lines 512-529): a missing or falsy window id, an
unbound window, and a binding to an id absent from the registry all yield a
null-workspace payload; only a bound, registered workspace is returned. -/
def getCurrentWorkspace (windowId : Option Nat) (st : EngineState) : HandlerResult :=
  match windowId with
  | none => HandlerResult.currentWorkspace none
  | some wid =>
    if wid == 0 then HandlerResult.currentWorkspace none
    else
      match alGet st.windowBindings wid with
      | none => HandlerResult.currentWorkspace none
      | some workspaceId =>
        match st.workspaceIndex.find? (fun ws => ws.id == workspaceId) with
        | none => HandlerResult.currentWorkspace none
        | some workspace => HandlerResult.currentWorkspace (some workspace)

/-- `browser.windows.onRemoved` handling plus the host's removal of the
window itself (lines 148-155): the window ceases to exist, and its binding,
when present, is deleted and the table saved. -/
def handleWindowRemoved (windowId : Nat) (st : EngineState) : EngineState :=
  let st0 := { st with windows := st.windows.filter (fun w => w.id != windowId) }
  if (alGet st0.windowBindings windowId).isSome then
    { st0 with windowBindings := st0.windowBindings.filter (fun p => p.1 != windowId) }
  else st0

/-- `cleanupStaleBindings` (lines 43-56): keep only the bindings whose window
id is currently live, and save the pruned table. -/
def cleanupStaleBindings (st : EngineState) : EngineState :=
  { st with windowBindings :=
      st.windowBindings.filter (fun p => st.windows.any (fun w => w.id == p.1)) }

/-- An incoming request on the messaging surface (lines 284-321). -/
inductive Message where
  | getWorkspaces
  | createWorkspace (data : CreateData)
  | openWorkspace (workspaceId : String)
  | deleteWorkspace (workspaceId : String)
  | renameWorkspace (workspaceId : String) (name : String)
  | togglePin (workspaceId : String)
  | getSettings
  | saveSettings (autoSave includePinnedTabs focusExistingWindow : Bool)
  | getStorageUsage
  | getCurrentWorkspace (windowId : Option Nat)
  | unknown (action : String)
deriving DecidableEq, Repr

/-- The host-supplied inputs of a request: the generated workspace id, the id
of a window the host would create, the clock, and the reported sync usage. -/
structure HostEnv where
  newId : String
  newWinId : Nat
  now : Nat
  syncUsage : Nat
deriving DecidableEq, Repr

/-- `handleMessage` (lines 284-321): dispatch on the action; unrecognized
actions yield a structured error object. -/
def handleMessage (env : HostEnv) (message : Message) (st : EngineState) :
    EngineState × List Effect × HandlerResult :=
  match message with
  | Message.getWorkspaces => (st, [], HandlerResult.workspaces st.workspaceIndex st.windowBindings)
  | Message.createWorkspace data => createWorkspace data env.newId env.now st
  | Message.openWorkspace workspaceId => openWorkspace workspaceId env.newWinId st
  | Message.deleteWorkspace workspaceId => deleteWorkspace workspaceId st
  | Message.renameWorkspace workspaceId name => renameWorkspace workspaceId name env.now st
  | Message.togglePin workspaceId => toggleWorkspacePin workspaceId st
  | Message.getSettings =>
    (st, [], HandlerResult.settingsPayload st.autoSave st.includePinnedTabs st.focusExistingWindow)
  | Message.saveSettings a i f =>
    ({ st with autoSave := a, includePinnedTabs := i, focusExistingWindow := f },
     [], HandlerResult.success)
  | Message.getStorageUsage => (st, [], HandlerResult.usage env.syncUsage)
  | Message.getCurrentWorkspace windowId => (st, [], getCurrentWorkspace windowId st)
  | Message.unknown _ => (st, [], HandlerResult.error "Unknown action")

theorem alGet_isSome_of_mem {κ α : Type} [DecidableEq κ] {m : List (κ × α)} {p : κ × α}
    (h : p ∈ m) : (alGet m p.1).isSome = true := by
  induction m with
  | nil => cases h
  | cons q rest ih =>
    rcases List.mem_cons.mp h with h' | h'
    · subst h'; simp [alGet]
    · by_cases hq : q.1 = p.1
      · simp [alGet, hq]
      · simp [alGet, hq, ih h']

theorem filter_keys_nodup {κ α : Type} (m : List (κ × α)) (q : κ × α → Bool)
    (h : (m.map Prod.fst).Nodup) : ((m.filter q).map Prod.fst).Nodup :=
  List.Nodup.sublist (List.Sublist.map Prod.fst (List.filter_sublist m)) h

theorem updateFirst_length {α : Type} (p : α → Bool) (f : α → α) (l : List α) :
    (updateFirst p f l).length = l.length := by
  induction l with
  | nil => rfl
  | cons x xs ih =>
    by_cases hx : p x
    · simp [updateFirst, hx]
    · simp [updateFirst, hx, ih]

theorem updateFirst_find? {α : Type} (p : α → Bool) (f : α → α) (l : List α) (e : α)
    (hfind : l.find? p = some e) (hf : p (f e) = true) :
    (updateFirst p f l).find? p = some (f e) := by
  induction l with
  | nil => simp [List.find?] at hfind
  | cons x xs ih =>
    by_cases hx : p x
    · rw [List.find?_cons_of_pos _ hx] at hfind
      injection hfind with he
      subst he
      simp [updateFirst, hx, List.find?_cons_of_pos _ hf]
    · rw [List.find?_cons_of_neg _ (by simpa using hx)] at hfind
      simp only [updateFirst, if_neg hx]
      rw [List.find?_cons_of_neg _ (by simpa using hx)]
      exact ih hfind

theorem updateFirst_getElem?_of_ne {α : Type} (p : α → Bool) (f : α → α) (l : List α)
    (i : Nat) (e : α) (he : l[i]? = some e) (hne : p e = false) :
    (updateFirst p f l)[i]? = some e := by
  induction l generalizing i with
  | nil => simp at he
  | cons x xs ih =>
    by_cases hx : p x
    · have hu : updateFirst p f (x :: xs) = f x :: xs := by simp [updateFirst, hx]
      rw [hu]
      cases i with
      | zero =>
        simp only [List.getElem?_cons_zero, Option.some.injEq] at he
        subst he
        rw [hne] at hx
        cases hx
      | succ j => simpa using he
    · have hu : updateFirst p f (x :: xs) = x :: updateFirst p f xs := by
        simp [updateFirst, hx]
      rw [hu]
      cases i with
      | zero => simpa using he
      | succ j =>
        simp only [List.getElem?_cons_succ] at he ⊢
        exact ih j he

theorem mem_updateFirst {α : Type} (p : α → Bool) (f : α → α) (l : List α) (y : α)
    (h : y ∈ updateFirst p f l) : y ∈ l ∨ ∃ x ∈ l, y = f x := by
  induction l with
  | nil => cases h
  | cons x xs ih =>
    by_cases hx : p x
    · simp only [updateFirst, if_pos hx, List.mem_cons] at h
      rcases h with h | h
      · exact Or.inr ⟨x, List.mem_cons_self _ _, h⟩
      · exact Or.inl (List.mem_cons_of_mem _ h)
    · simp only [updateFirst, if_neg hx, List.mem_cons] at h
      rcases h with h | h
      · exact Or.inl (h ▸ List.mem_cons_self _ _)
      · rcases ih h with h' | ⟨z, hz, hy⟩
        · exact Or.inl (List.mem_cons_of_mem _ h')
        · exact Or.inr ⟨z, List.mem_cons_of_mem _ hz, hy⟩

/-! Concrete sample data used by witnesses and counterexamples. -/

/-- A sample registry record for workspace id `W`. -/
def sampleRecW : WorkspaceRec :=
  { id := "W", name := "Research", color := "#111", pinned := false, archived := false,
    createdAt := 1, updatedAt := 1, tabCount := 1 }

/-- A sample eligible live tab. -/
def sampleTabA : LiveTab :=
  { id := 10, url := "https://a.example/", title := "A", pinned := false }

/-- A sample stored descriptor. -/
def sampleDesc1 : TabDescriptor :=
  { u := "https://a.example/", t := some "A", p := false }

/-- A state whose registry holds `W` with a stored one-descriptor snapshot at
version 1, no live windows, and `focusExistingWindow` disabled. -/
def sampleStore : EngineState :=
  { workspaceIndex := [sampleRecW], windowBindings := [], saveTimers := [], windows := [],
    tabsOf := [("W", [sampleDesc1])], versionOf := [("W", 1)], hashOf := [],
    autoSave := true, includePinnedTabs := true, focusExistingWindow := false }

/-- A state with live window 1 (holding one eligible tab) bound to `W`,
auto-save on, and an empty snapshot store. -/
def sampleBoundState : EngineState :=
  { workspaceIndex := [sampleRecW], windowBindings := [(1, "W")], saveTimers := [],
    windows := [{ id := 1, tabs := [sampleTabA] }],
    tabsOf := [], versionOf := [], hashOf := [],
    autoSave := true, includePinnedTabs := true, focusExistingWindow := false }

/-- The sample host environment for message-handling witnesses. -/
def sampleEnv : HostEnv := { newId := "fresh", newWinId := 9, now := 50, syncUsage := 0 }

/-- The state reached from `sampleBoundState` by a tab-mutation event on
window 1 (arming the debounce timer for `W`) followed by creating a new
workspace `W2` from window 1, which rebinds window 1 to `W2` and leaves `W`
bound to no window while the armed timer still records (`W`, window 1). -/
def sampleReboundState : EngineState :=
  (createWorkspace
    { name := some "New", color := none, fromCurrentWindow := true, windowId := some 1 }
    "W2" 5 (handleTabChange 1 sampleBoundState)).1

/-- C1 (amended): when the debounce timer for a workspace fires, the capture
runs on the window id recorded when the mutation event was handled, not on a
binding re-resolved at fire time: the fire step is exactly a snapshot save
for the recorded window, and its outcome is unaffected by whatever the
window-binding table holds at fire time (it is not consulted and is left
unchanged). -/
theorem fire_uses_recorded_window (workspaceId : String) (windowId now : Nat)
    (st : EngineState) (bs : List (Nat × String))
    (h : alGet st.saveTimers workspaceId = some windowId) :
    fireSaveTimer workspaceId now st = saveWorkspaceSnapshot workspaceId windowId now st ∧
    (fireSaveTimer workspaceId now { st with windowBindings := bs }).1 =
      { (fireSaveTimer workspaceId now st).1 with windowBindings := bs } := by
  have h' : alGet ({ st with windowBindings := bs } : EngineState).saveTimers workspaceId =
      some windowId := h
  refine ⟨by simp [fireSaveTimer, h], ?_⟩
  simp only [fireSaveTimer, h, h']
  by_cases hc : getHashOf st workspaceId =
      some (fingerprintOf (captureDescriptors st windowId))
  · have hc' : getHashOf ({ st with windowBindings := bs } : EngineState) workspaceId =
        some (fingerprintOf
          (captureDescriptors ({ st with windowBindings := bs } : EngineState) windowId)) := hc
    simp [saveWorkspaceSnapshot, hc, hc']
  · have hc' : ¬ (getHashOf ({ st with windowBindings := bs } : EngineState) workspaceId =
        some (fingerprintOf
          (captureDescriptors ({ st with windowBindings := bs } : EngineState) windowId))) := hc
    simp only [saveWorkspaceSnapshot, if_neg hc, if_neg hc']
    cases st
    rfl

/-- Closed instantiation of the C1 theorem: in `sampleReboundState` the armed
slot for `W` records window 1, so the fire captures window 1 even under an
emptied binding table. -/
theorem fire_uses_recorded_window_witness :
    fireSaveTimer "W" 7 sampleReboundState =
      saveWorkspaceSnapshot "W" 1 7 sampleReboundState ∧
    (fireSaveTimer "W" 7 { sampleReboundState with windowBindings := [] }).1 =
      { (fireSaveTimer "W" 7 sampleReboundState).1 with windowBindings := [] } :=
  fire_uses_recorded_window "W" 1 7 sampleReboundState [] (by decide)

/-- C1 counterexample: in `sampleReboundState` the workspace `W` is bound to
no window at fire time, yet the timer fire is not a no-op — it performs a
snapshot write for `W` (capturing window 1, now owned by `W2`), refuting the
claim that the fire re-resolves the binding and no-ops when the workspace is
unbound. -/
theorem fire_stale_binding_counterexample :
    sampleReboundState.windowBindings.all (fun p => p.2 != "W") = true ∧
    (fireSaveTimer "W" 7 sampleReboundState).1 ≠ sampleReboundState ∧
    getVersionOf (fireSaveTimer "W" 7 sampleReboundState).1 "W" = 1 ∧
    getVersionOf sampleReboundState "W" = 0 := by
  refine ⟨by decide, by decide, by decide, by decide⟩

/-- C3: snapshot capture is idempotent with respect to the fingerprint — a
capture whose freshly computed fingerprint equals the stored one performs no
write at all (the state is returned untouched and the write trace is empty);
an immediate second capture with no intervening tab mutation is always such
a no-op, so two consecutive captures yield at most the single version
increment of the first (which is exactly one when the first does write). -/
theorem capture_idempotent (workspaceId : String) (windowId t1 t2 : Nat) (st : EngineState) :
    (getHashOf st workspaceId = some (fingerprintOf (captureDescriptors st windowId)) →
      saveWorkspaceSnapshot workspaceId windowId t1 st = (st, [])) ∧
    saveWorkspaceSnapshot workspaceId windowId t2
        (saveWorkspaceSnapshot workspaceId windowId t1 st).1 =
      ((saveWorkspaceSnapshot workspaceId windowId t1 st).1, []) ∧
    (getHashOf st workspaceId ≠ some (fingerprintOf (captureDescriptors st windowId)) →
      getVersionOf (saveWorkspaceSnapshot workspaceId windowId t1 st).1 workspaceId =
        getVersionOf st workspaceId + 1) := by
  by_cases hc : getHashOf st workspaceId =
      some (fingerprintOf (captureDescriptors st windowId))
  · exact ⟨fun _ => by simp [saveWorkspaceSnapshot, hc],
      by simp [saveWorkspaceSnapshot, hc], fun hn => absurd hc hn⟩
  · have h1 : (saveWorkspaceSnapshot workspaceId windowId t1 st).1 =
        snapshotWriteState workspaceId windowId t1 st := by
      simp [saveWorkspaceSnapshot, hc]
    refine ⟨fun h => absurd h hc, ?_, fun _ => ?_⟩
    · rw [h1]
      have hcap : captureDescriptors (snapshotWriteState workspaceId windowId t1 st)
          windowId = captureDescriptors st windowId := rfl
      have hh : getHashOf (snapshotWriteState workspaceId windowId t1 st) workspaceId =
          some (fingerprintOf (captureDescriptors st windowId)) :=
        alGet_alSet_self st.hashOf workspaceId _
      simp [saveWorkspaceSnapshot, hcap, hh]
    · rw [h1]
      show (alGet (alSet st.versionOf workspaceId (getVersionOf st workspaceId + 1))
          workspaceId).getD 0 = getVersionOf st workspaceId + 1
      rw [alGet_alSet_self]
      rfl

/-- Closed instantiation of the C3 theorem: in `sampleBoundState` the first
capture writes (version goes to 1) and the second capture is a strict no-op. -/
theorem capture_idempotent_witness :
    saveWorkspaceSnapshot "W" 1 4 (saveWorkspaceSnapshot "W" 1 3 sampleBoundState).1 =
      ((saveWorkspaceSnapshot "W" 1 3 sampleBoundState).1, []) ∧
    getVersionOf (saveWorkspaceSnapshot "W" 1 3 sampleBoundState).1 "W" =
      getVersionOf sampleBoundState "W" + 1 :=
  ⟨(capture_idempotent "W" 1 3 4 sampleBoundState).2.1,
   (capture_idempotent "W" 1 3 4 sampleBoundState).2.2 (by decide)⟩

/-- C5 (amended): after a snapshot-capture write, the stored fingerprint
equals the fingerprint of the descriptor sequence just written; but the
direct snapshot writes of `moveTabToWorkspace` and `createWorkspace` leave
the stored fingerprint entirely unchanged, so the claimed consistency does
not extend to them. -/
theorem capture_write_fingerprint_consistent (workspaceId : String) (windowId now : Nat)
    (st : EngineState)
    (h : getHashOf st workspaceId ≠ some (fingerprintOf (captureDescriptors st windowId))) :
    getHashOf (saveWorkspaceSnapshot workspaceId windowId now st).1 workspaceId =
      some (fingerprintOf
        (getTabsOf (saveWorkspaceSnapshot workspaceId windowId now st).1 workspaceId)) ∧
    (∀ (tab : LiveTab) (target : String) (st' : EngineState),
      (moveTabToWorkspace tab target st').1.hashOf = st'.hashOf) ∧
    (∀ (d : CreateData) (newId : String) (t : Nat) (st' : EngineState),
      (createWorkspace d newId t st').1.hashOf = st'.hashOf) := by
  refine ⟨?_, ?_, ?_⟩
  · have h1 : (saveWorkspaceSnapshot workspaceId windowId now st).1 =
        snapshotWriteState workspaceId windowId now st := by
      simp [saveWorkspaceSnapshot, h]
    rw [h1]
    have ht : getTabsOf (snapshotWriteState workspaceId windowId now st) workspaceId =
        captureDescriptors st windowId := by
      show (alGet (alSet st.tabsOf workspaceId (captureDescriptors st windowId))
          workspaceId).getD [] = captureDescriptors st windowId
      rw [alGet_alSet_self]
      rfl
    rw [ht]
    exact alGet_alSet_self st.hashOf workspaceId _
  · intro tab target st'
    unfold moveTabToWorkspace
    split <;> rfl
  · intro d newId t st'
    unfold createWorkspace
    split <;> rfl

/-- Closed instantiation of the C5 theorem: the first capture in
`sampleBoundState` leaves a fingerprint matching the sequence it wrote. -/
theorem capture_write_fingerprint_consistent_witness :
    getHashOf (saveWorkspaceSnapshot "W" 1 3 sampleBoundState).1 "W" =
      some (fingerprintOf (getTabsOf (saveWorkspaceSnapshot "W" 1 3 sampleBoundState).1 "W")) :=
  (capture_write_fingerprint_consistent "W" 1 3 sampleBoundState (by decide)).1

/-- `sampleStore` with a stored fingerprint consistent with its stored
one-descriptor snapshot. -/
def sampleConsistentStore : EngineState :=
  { sampleStore with hashOf := [("W", fingerprintOf [sampleDesc1])] }

/-- C5 counterexample: moving a tab to the closed workspace `W` of
`sampleConsistentStore` completes a write of a two-descriptor sequence at
version 2, yet the stored fingerprint afterwards is still that of the old
one-descriptor sequence — not the fingerprint of the sequence just written. -/
theorem move_fingerprint_stale_counterexample :
    getTabsOf (moveTabToWorkspace sampleTabA "W" sampleConsistentStore).1 "W" =
      [sampleDesc1, createTabDescriptor sampleTabA] ∧
    getVersionOf (moveTabToWorkspace sampleTabA "W" sampleConsistentStore).1 "W" = 2 ∧
    getHashOf (moveTabToWorkspace sampleTabA "W" sampleConsistentStore).1 "W" =
      some (fingerprintOf [sampleDesc1]) ∧
    getHashOf (moveTabToWorkspace sampleTabA "W" sampleConsistentStore).1 "W" ≠
      some (fingerprintOf
        (getTabsOf (moveTabToWorkspace sampleTabA "W" sampleConsistentStore).1 "W")) := by
  refine ⟨by decide, by decide, by decide, by decide⟩

/-- C6: moving a tab to another workspace splits on the binding: when some
live window is bound to the target, the tab is relocated into that window
and no snapshot write occurs (store and debounce slots untouched); when no
window is bound, exactly one descriptor is appended to the target's stored
snapshot at version `current + 1` in a single immediate write — no hash
write and no timer involved — and the tab is removed from its source
window. -/
theorem move_tab_semantics (tab : LiveTab) (target : String) (st : EngineState) :
    (∀ p, st.windowBindings.find? (fun q => q.2 == target) = some p →
      (moveTabToWorkspace tab target st).2 = [Effect.physMoveTab tab.id p.1] ∧
      (moveTabToWorkspace tab target st).1.tabsOf = st.tabsOf ∧
      (moveTabToWorkspace tab target st).1.versionOf = st.versionOf ∧
      (moveTabToWorkspace tab target st).1.hashOf = st.hashOf ∧
      (moveTabToWorkspace tab target st).1.saveTimers = st.saveTimers ∧
      (∀ w ∈ st.windows, w.id = p.1 →
        ∃ w' ∈ (moveTabToWorkspace tab target st).1.windows, w'.id = p.1 ∧ tab ∈ w'.tabs) ∧
      (∀ w' ∈ (moveTabToWorkspace tab target st).1.windows, w'.id ≠ p.1 →
        ∀ tb ∈ w'.tabs, tb.id ≠ tab.id)) ∧
    (st.windowBindings.find? (fun q => q.2 == target) = none →
      getTabsOf (moveTabToWorkspace tab target st).1 target =
        getTabsOf st target ++ [createTabDescriptor tab] ∧
      getVersionOf (moveTabToWorkspace tab target st).1 target =
        getVersionOf st target + 1 ∧
      (moveTabToWorkspace tab target st).2 =
        [Effect.writeTabs target (getTabsOf st target ++ [createTabDescriptor tab])
          (getVersionOf st target + 1),
         Effect.physRemoveTab tab.id] ∧
      (moveTabToWorkspace tab target st).1.hashOf = st.hashOf ∧
      (moveTabToWorkspace tab target st).1.saveTimers = st.saveTimers ∧
      (∀ w' ∈ (moveTabToWorkspace tab target st).1.windows, ∀ tb ∈ w'.tabs,
        tb.id ≠ tab.id)) := by
  constructor
  · intro p hp
    have hmv : moveTabToWorkspace tab target st =
        ({ st with windows :=
            (List.map
              (fun w' => if w'.id == p.1 then { w' with tabs := w'.tabs ++ [tab] } else w')
              (removeTabEverywhere tab.id st.windows)) },
         [Effect.physMoveTab tab.id p.1]) := by
      simp only [moveTabToWorkspace, hp]
    rw [hmv]
    refine ⟨rfl, rfl, rfl, rfl, rfl, ?_, ?_⟩
    · intro w hw hid
      refine ⟨{ w with tabs := w.tabs.filter (fun tb => tb.id != tab.id) ++ [tab] },
        ?_, hid, by simp⟩
      refine List.mem_map.mpr
        ⟨{ w with tabs := w.tabs.filter (fun tb => tb.id != tab.id) },
         List.mem_map.mpr ⟨w, hw, rfl⟩, ?_⟩
      simp [hid]
    · intro w' hw' hid' tb htb
      rcases List.mem_map.mp hw' with ⟨v, hv, hvimg⟩
      rcases List.mem_map.mp hv with ⟨u, _, huimg⟩
      by_cases hc : (v.id == p.1) = true
      · exfalso
        apply hid'
        rw [← hvimg]
        simp only [if_pos hc]
        simpa using hc
      · rw [if_neg hc] at hvimg
        subst hvimg
        rw [← huimg] at htb
        have := (List.mem_filter.mp htb).2
        simpa using this
  · intro hp
    have hmv : moveTabToWorkspace tab target st =
        ({ st with
            tabsOf := alSet st.tabsOf target (getTabsOf st target ++ [createTabDescriptor tab]),
            versionOf := alSet st.versionOf target (getVersionOf st target + 1),
            windows := removeTabEverywhere tab.id st.windows },
         [Effect.writeTabs target (getTabsOf st target ++ [createTabDescriptor tab])
            (getVersionOf st target + 1),
          Effect.physRemoveTab tab.id]) := by
      simp only [moveTabToWorkspace, hp]
    rw [hmv]
    refine ⟨?_, ?_, rfl, rfl, rfl, ?_⟩
    · show (alGet (alSet st.tabsOf target (getTabsOf st target ++ [createTabDescriptor tab]))
          target).getD [] = getTabsOf st target ++ [createTabDescriptor tab]
      rw [alGet_alSet_self]
      rfl
    · show (alGet (alSet st.versionOf target (getVersionOf st target + 1)) target).getD 0 =
        getVersionOf st target + 1
      rw [alGet_alSet_self]
      rfl
    · intro w' hw' tb htb
      rcases List.mem_map.mp hw' with ⟨u, _, huimg⟩
      rw [← huimg] at htb
      have := (List.mem_filter.mp htb).2
      simpa using this

/-- Closed instantiation of the C6 theorem in the unbound case: moving the
sample tab into the closed workspace `W` of `sampleStore` appends exactly
one descriptor and bumps the version by exactly one. -/
theorem move_tab_semantics_witness :
    getTabsOf (moveTabToWorkspace sampleTabA "W" sampleStore).1 "W" =
      getTabsOf sampleStore "W" ++ [createTabDescriptor sampleTabA] ∧
    getVersionOf (moveTabToWorkspace sampleTabA "W" sampleStore).1 "W" =
      getVersionOf sampleStore "W" + 1 :=
  ⟨((move_tab_semantics sampleTabA "W" sampleStore).2 (by decide)).1,
   ((move_tab_semantics sampleTabA "W" sampleStore).2 (by decide)).2.1⟩

theorem find?_append_of_none {α : Type} (p : α → Bool) (l1 l2 : List α)
    (h : l1.find? p = none) : (l1 ++ l2).find? p = l2.find? p := by
  induction l1 with
  | nil => rfl
  | cons x xs ih =>
    by_cases hx : p x
    · rw [List.find?_cons_of_pos _ hx] at h
      cases h
    · rw [List.find?_cons_of_neg _ (by simpa using hx)] at h
      show ((x :: (xs ++ l2)).find? p) = l2.find? p
      rw [List.find?_cons_of_neg _ (by simpa using hx)]
      exact ih h

/-- C8: creating a workspace from a window whose tab list has four entries of
which three survive the eligibility filters stores exactly those three
descriptors under version 1, records `tabCount = 3` in the new registry
entry, binds the source window to the new id, and issues the binding write
strictly before the snapshot writes in its effect trace. -/
theorem create_from_window_scenario (d : CreateData) (w : Nat) (newId : String) (now : Nat)
    (st : EngineState)
    (hw : effectiveWindow d = some w)
    (hfresh : st.workspaceIndex.find? (fun ws => ws.id == newId) = none)
    (hn : (queryTabs st w).length = 4)
    (he : (captureDescriptors st w).length = 3) :
    getTabsOf (createWorkspace d newId now st).1 newId = captureDescriptors st w ∧
    (getTabsOf (createWorkspace d newId now st).1 newId).length = 3 ∧
    getVersionOf (createWorkspace d newId now st).1 newId = 1 ∧
    (∃ rec, (createWorkspace d newId now st).1.workspaceIndex.find?
        (fun ws => ws.id == newId) = some rec ∧ rec.tabCount = 3) ∧
    alGet (createWorkspace d newId now st).1.windowBindings w = some newId ∧
    (createWorkspace d newId now st).2.1 =
      [Effect.writeBindings (alSet st.windowBindings w newId),
       Effect.writeIndex ((createWorkspace d newId now st).1.workspaceIndex),
       Effect.writeTabs newId (captureDescriptors st w) 1,
       Effect.writeTabs newId (captureDescriptors st w) 1] := by
  have h1 : getTabsOf (createWorkspace d newId now st).1 newId = captureDescriptors st w := by
    simp only [createWorkspace, hw]
    show (alGet (alSet st.tabsOf newId (captureDescriptors st w)) newId).getD [] =
      captureDescriptors st w
    rw [alGet_alSet_self]
    rfl
  refine ⟨h1, by rw [h1]; exact he, ?_, ?_, ?_, ?_⟩
  · simp only [createWorkspace, hw]
    show (alGet (alSet st.versionOf newId 1) newId).getD 0 = 1
    rw [alGet_alSet_self]
    rfl
  · simp only [createWorkspace, hw]
    refine ⟨{ id := newId,
              name := jsOr d.name (getDefaultWorkspaceName st.workspaceIndex),
              color := jsOr d.color getRandomColor, pinned := false, archived := false,
              createdAt := now, updatedAt := now,
              tabCount := (captureDescriptors st w).length },
      ?_, he⟩
    rw [find?_append_of_none _ _ _ hfresh]
    exact List.find?_cons_of_pos _ (by simp)
  · simp only [createWorkspace, hw]
    exact alGet_alSet_self st.windowBindings w newId
  · simp only [createWorkspace, hw]

/-- The create-from-current-window request used by the C8 witness. -/
def sampleCreateFromWindow : CreateData :=
  { name := some "Research", color := none, fromCurrentWindow := true, windowId := some 3 }

/-- A state with one live window (id 3) holding three eligible tabs and one
excluded `about:` tab, and an empty registry and store. -/
def sampleFourTabWindowState : EngineState :=
  { workspaceIndex := [], windowBindings := [], saveTimers := [],
    windows := [{ id := 3, tabs :=
      [{ id := 1, url := "https://a.example/", title := "A", pinned := false },
       { id := 2, url := "https://b.example/", title := "B", pinned := false },
       { id := 3, url := "about:config", title := "cfg", pinned := false },
       { id := 4, url := "https://c.example/", title := "C", pinned := false }] }],
    tabsOf := [], versionOf := [], hashOf := [],
    autoSave := true, includePinnedTabs := true, focusExistingWindow := false }

/-- Closed instantiation of the C8 theorem on the concrete four-tab window. -/
theorem create_from_window_scenario_witness :
    getTabsOf (createWorkspace sampleCreateFromWindow "R1" 20 sampleFourTabWindowState).1 "R1" =
      captureDescriptors sampleFourTabWindowState 3 ∧
    getVersionOf (createWorkspace sampleCreateFromWindow "R1" 20 sampleFourTabWindowState).1
      "R1" = 1 ∧
    alGet (createWorkspace sampleCreateFromWindow "R1" 20
      sampleFourTabWindowState).1.windowBindings 3 = some "R1" :=
  ⟨(create_from_window_scenario sampleCreateFromWindow 3 "R1" 20 sampleFourTabWindowState
      (by decide) (by decide) (by decide) (by decide)).1,
   (create_from_window_scenario sampleCreateFromWindow 3 "R1" 20 sampleFourTabWindowState
      (by decide) (by decide) (by decide) (by decide)).2.2.1,
   (create_from_window_scenario sampleCreateFromWindow 3 "R1" 20 sampleFourTabWindowState
      (by decide) (by decide) (by decide) (by decide)).2.2.2.2.1⟩

/-- C9: renaming an existing workspace rewrites exactly its registry entry —
the entry's name becomes the supplied one and its `updatedAt` becomes the
current clock, strictly later than before whenever the clock has advanced —
while the snapshot store (tabs, versions, fingerprints), the binding table,
and every other registry entry are left unchanged. -/
theorem rename_updates_single_entry (workspaceId name : String) (now : Nat)
    (st : EngineState) (e : WorkspaceRec)
    (hfind : st.workspaceIndex.find? (fun ws => ws.id == workspaceId) = some e)
    (hclock : e.updatedAt < now) :
    (renameWorkspace workspaceId name now st).2.2 = HandlerResult.success ∧
    (renameWorkspace workspaceId name now st).1.workspaceIndex.find?
        (fun ws => ws.id == workspaceId) =
      some { e with name := name, updatedAt := now } ∧
    e.updatedAt < ({ e with name := name, updatedAt := now } : WorkspaceRec).updatedAt ∧
    (renameWorkspace workspaceId name now st).1.tabsOf = st.tabsOf ∧
    (renameWorkspace workspaceId name now st).1.versionOf = st.versionOf ∧
    (renameWorkspace workspaceId name now st).1.hashOf = st.hashOf ∧
    (renameWorkspace workspaceId name now st).1.windowBindings = st.windowBindings ∧
    (renameWorkspace workspaceId name now st).1.workspaceIndex.length =
      st.workspaceIndex.length ∧
    (∀ (i : Nat) (x : WorkspaceRec), st.workspaceIndex[i]? = some x → x.id ≠ workspaceId →
      (renameWorkspace workspaceId name now st).1.workspaceIndex[i]? = some x) := by
  have hrn : renameWorkspace workspaceId name now st =
      ({ st with workspaceIndex :=
          (updateFirst (fun ws => ws.id == workspaceId)
            (fun ws => { ws with name := name, updatedAt := now }) st.workspaceIndex) },
       [Effect.writeIndex (updateFirst (fun ws => ws.id == workspaceId)
          (fun ws => { ws with name := name, updatedAt := now }) st.workspaceIndex)],
       HandlerResult.success) := by
    simp only [renameWorkspace, hfind]
  rw [hrn]
  refine ⟨rfl, ?_, hclock, rfl, rfl, rfl, rfl, updateFirst_length _ _ _, ?_⟩
  · exact updateFirst_find? _ _ _ e hfind (by simpa using List.find?_some hfind)
  · intro i x hx hner
    exact updateFirst_getElem?_of_ne _ _ _ i x hx (by simpa using hner)

/-- Closed instantiation of the C9 theorem: renaming `W` to "Client A" at
clock 30 in `sampleStore`. -/
theorem rename_updates_single_entry_witness :
    (renameWorkspace "W" "Client A" 30 sampleStore).2.2 = HandlerResult.success ∧
    (renameWorkspace "W" "Client A" 30 sampleStore).1.workspaceIndex.find?
        (fun ws => ws.id == "W") =
      some { sampleRecW with name := "Client A", updatedAt := 30 } ∧
    (renameWorkspace "W" "Client A" 30 sampleStore).1.tabsOf = sampleStore.tabsOf :=
  ⟨(rename_updates_single_entry "W" "Client A" 30 sampleStore sampleRecW
      (by decide) (by decide)).1,
   (rename_updates_single_entry "W" "Client A" 30 sampleStore sampleRecW
      (by decide) (by decide)).2.1,
   (rename_updates_single_entry "W" "Client A" 30 sampleStore sampleRecW
      (by decide) (by decide)).2.2.2.1⟩

theorem getCurrentWorkspace_not_error (st : EngineState) (windowId : Option Nat)
    (r : String) : getCurrentWorkspace windowId st ≠ HandlerResult.error r := by
  unfold getCurrentWorkspace
  cases windowId with
  | none => simp
  | some wid =>
    by_cases h0 : (wid == 0) = true
    · simp [h0]
    · cases halg : alGet st.windowBindings wid with
      | none => simp [h0, halg]
      | some wsId =>
        cases hf : st.workspaceIndex.find? (fun ws => ws.id == wsId) with
        | none => simp [h0, halg, hf]
        | some rec => simp [h0, halg, hf]

/-- C10: the get-current-workspace request never yields an error — a missing
or falsy window id, an unbound window, and a binding whose workspace id is
absent from the registry all produce the null-workspace payload, and only a
bound, registered workspace produces that workspace's record. -/
theorem get_current_workspace_total (st : EngineState) (windowId : Option Nat) :
    (∀ r, getCurrentWorkspace windowId st ≠ HandlerResult.error r) ∧
    (windowId = none →
      getCurrentWorkspace windowId st = HandlerResult.currentWorkspace none) ∧
    (windowId = some 0 →
      getCurrentWorkspace windowId st = HandlerResult.currentWorkspace none) ∧
    (∀ w, windowId = some w → w ≠ 0 → alGet st.windowBindings w = none →
      getCurrentWorkspace windowId st = HandlerResult.currentWorkspace none) ∧
    (∀ w wsId, windowId = some w → w ≠ 0 → alGet st.windowBindings w = some wsId →
      st.workspaceIndex.find? (fun ws => ws.id == wsId) = none →
      getCurrentWorkspace windowId st = HandlerResult.currentWorkspace none) ∧
    (∀ w wsId rec, windowId = some w → w ≠ 0 → alGet st.windowBindings w = some wsId →
      st.workspaceIndex.find? (fun ws => ws.id == wsId) = some rec →
      getCurrentWorkspace windowId st = HandlerResult.currentWorkspace (some rec)) := by
  refine ⟨getCurrentWorkspace_not_error st windowId, ?_, ?_, ?_, ?_, ?_⟩
  · intro h
    subst h
    rfl
  · intro h
    subst h
    rfl
  · intro w h h0 halg
    subst h
    simp [getCurrentWorkspace, h0, halg]
  · intro w wsId h h0 halg hf
    subst h
    simp [getCurrentWorkspace, h0, halg, hf]
  · intro w wsId rec h h0 halg hf
    subst h
    simp [getCurrentWorkspace, h0, halg, hf]

/-- Closed instantiation of the C10 theorem on `sampleBoundState`: window 1
is bound to the registered `W`, window 2 is unbound, and the falsy id 0 and
the missing id both yield the null payload. -/
theorem get_current_workspace_total_witness :
    getCurrentWorkspace (some 1) sampleBoundState =
      HandlerResult.currentWorkspace (some sampleRecW) ∧
    getCurrentWorkspace (some 2) sampleBoundState = HandlerResult.currentWorkspace none ∧
    getCurrentWorkspace (some 0) sampleBoundState = HandlerResult.currentWorkspace none ∧
    getCurrentWorkspace none sampleBoundState = HandlerResult.currentWorkspace none :=
  ⟨(get_current_workspace_total sampleBoundState (some 1)).2.2.2.2.2 1 "W" sampleRecW
      rfl (by decide) (by decide) (by decide),
   (get_current_workspace_total sampleBoundState (some 2)).2.2.2.1 2 rfl (by decide)
      (by decide),
   (get_current_workspace_total sampleBoundState (some 0)).2.2.1 rfl,
   (get_current_workspace_total sampleBoundState none).2.1 rfl⟩

theorem createWorkspace_no_error (d : CreateData) (newId : String) (now : Nat)
    (st : EngineState) (r : String) :
    (createWorkspace d newId now st).2.2 ≠ HandlerResult.error r := by
  unfold createWorkspace
  split <;> simp

theorem openNewWindow_no_error (ws : String) (win : Nat) (st : EngineState) (r : String) :
    (openNewWindow ws win st).2.2 ≠ HandlerResult.error r := by
  simp [openNewWindow]

theorem openWorkspace_error_reason (ws : String) (win : Nat) (st : EngineState) (r : String)
    (h : (openWorkspace ws win st).2.2 = HandlerResult.error r) :
    r = "Workspace not found" := by
  unfold openWorkspace at h
  split at h
  · simp at h
    exact h.symm
  · split at h
    · split at h
      · simp at h
      · exact absurd h (openNewWindow_no_error ws win st r)
    · exact absurd h (openNewWindow_no_error ws win st r)

theorem deleteWorkspace_error_reason (ws : String) (st : EngineState) (r : String)
    (h : (deleteWorkspace ws st).2.2 = HandlerResult.error r) :
    r = "Workspace not found" := by
  unfold deleteWorkspace at h
  split at h
  · simp at h
    exact h.symm
  · simp at h

theorem renameWorkspace_error_reason (ws nm : String) (now : Nat) (st : EngineState)
    (r : String) (h : (renameWorkspace ws nm now st).2.2 = HandlerResult.error r) :
    r = "Workspace not found" := by
  unfold renameWorkspace at h
  split at h
  · simp at h
    exact h.symm
  · simp at h

theorem togglePin_error_reason (ws : String) (st : EngineState) (r : String)
    (h : (toggleWorkspacePin ws st).2.2 = HandlerResult.error r) :
    r = "Workspace not found" := by
  unfold toggleWorkspacePin at h
  split at h
  · simp at h
    exact h.symm
  · simp at h

/-- C7: every request on the messaging surface yields either its payload or
a structured `error` object — the operations that reference a workspace id
absent from the registry (open, delete, rename, toggle-pin) return the
structured not-found error, an unrecognized action returns the
unknown-action error, and these two are the only error objects the handler
can ever produce (no other outcome escapes the dispatch). -/
theorem message_surface_structured_errors (env : HostEnv) (st : EngineState) :
    (∀ a, (handleMessage env (Message.unknown a) st).2.2 =
      HandlerResult.error "Unknown action") ∧
    (∀ wsId, st.workspaceIndex.find? (fun ws => ws.id == wsId) = none →
      (handleMessage env (Message.openWorkspace wsId) st).2.2 =
        HandlerResult.error "Workspace not found" ∧
      (handleMessage env (Message.deleteWorkspace wsId) st).2.2 =
        HandlerResult.error "Workspace not found" ∧
      (∀ nm, (handleMessage env (Message.renameWorkspace wsId nm) st).2.2 =
        HandlerResult.error "Workspace not found") ∧
      (handleMessage env (Message.togglePin wsId) st).2.2 =
        HandlerResult.error "Workspace not found") ∧
    (∀ m r, (handleMessage env m st).2.2 = HandlerResult.error r →
      r = "Unknown action" ∨ r = "Workspace not found") := by
  refine ⟨fun a => rfl, ?_, ?_⟩
  · intro wsId h
    exact ⟨by simp [handleMessage, openWorkspace, h],
      by simp [handleMessage, deleteWorkspace, h],
      fun nm => by simp [handleMessage, renameWorkspace, h],
      by simp [handleMessage, toggleWorkspacePin, h]⟩
  · intro m r h
    cases m with
    | getWorkspaces => simp [handleMessage] at h
    | createWorkspace d => exact absurd h (createWorkspace_no_error d env.newId env.now st r)
    | openWorkspace ws => exact Or.inr (openWorkspace_error_reason ws env.newWinId st r h)
    | deleteWorkspace ws => exact Or.inr (deleteWorkspace_error_reason ws st r h)
    | renameWorkspace ws nm =>
      exact Or.inr (renameWorkspace_error_reason ws nm env.now st r h)
    | togglePin ws => exact Or.inr (togglePin_error_reason ws st r h)
    | getSettings => simp [handleMessage] at h
    | saveSettings a i f => simp [handleMessage] at h
    | getStorageUsage => simp [handleMessage] at h
    | getCurrentWorkspace wid => exact absurd h (getCurrentWorkspace_not_error st wid r)
    | unknown a =>
      simp [handleMessage] at h
      exact Or.inl h.symm

/-- Closed instantiation of the C7 theorem: an absent workspace id and an
unrecognized action on the sample state. -/
theorem message_surface_structured_errors_witness :
    (handleMessage sampleEnv (Message.openWorkspace "absent") sampleStore).2.2 =
      HandlerResult.error "Workspace not found" ∧
    (handleMessage sampleEnv (Message.togglePin "absent") sampleStore).2.2 =
      HandlerResult.error "Workspace not found" ∧
    (handleMessage sampleEnv (Message.unknown "bogus") sampleStore).2.2 =
      HandlerResult.error "Unknown action" :=
  ⟨((message_surface_structured_errors sampleEnv sampleStore).2.1 "absent" (by decide)).1,
   ((message_surface_structured_errors sampleEnv sampleStore).2.1 "absent"
      (by decide)).2.2.2,
   (message_surface_structured_errors sampleEnv sampleStore).1 "bogus"⟩

/-- Checker for the claimed version invariant over an effect trace: every
snapshot write must carry a version strictly greater than the version
persisted for that workspace just before it (the trace is replayed against
the store's version map). -/
def versionWritesIncrease (versions : List (String × Nat)) : List Effect → Bool
  | [] => true
  | Effect.writeTabs ws _ v :: rest =>
    decide ((alGet versions ws).getD 0 < v) && versionWritesIncrease (alSet versions ws v) rest
  | _ :: rest => versionWritesIncrease versions rest

/-- The create-empty-workspace request used by the C4 evaluation. -/
def sampleNewWorkspaceData : CreateData :=
  { name := some "Notes", color := none, fromCurrentWindow := false, windowId := none }

/-- The registry record `createWorkspace sampleNewWorkspaceData "N" 9` builds. -/
def sampleNewRec : WorkspaceRec :=
  { id := "N", name := "Notes", color := "#3B82F6", pinned := false, archived := false,
    createdAt := 9, updatedAt := 9, tabCount := 1 }

/-- C4 fails on the code: `createWorkspace` persists the fresh snapshot
twice in a row (the duplicated line 374 of src/background.js), both times at
version 1, so its second persisted write does not carry a version strictly
greater than the previously persisted version 1 — while a single such write
would satisfy the invariant. -/
theorem create_duplicate_snapshot_write :
    (createWorkspace sampleNewWorkspaceData "N" 9 sampleStore).2.1 =
      [Effect.writeIndex (sampleStore.workspaceIndex ++ [sampleNewRec]),
       Effect.writeTabs "N" [{ u := "about:newtab", t := some "New Tab", p := false }] 1,
       Effect.writeTabs "N" [{ u := "about:newtab", t := some "New Tab", p := false }] 1] ∧
    versionWritesIncrease sampleStore.versionOf
      ((createWorkspace sampleNewWorkspaceData "N" 9 sampleStore).2.1) = false ∧
    versionWritesIncrease sampleStore.versionOf
      [Effect.writeIndex (sampleStore.workspaceIndex ++ [sampleNewRec]),
       Effect.writeTabs "N" [{ u := "about:newtab", t := some "New Tab", p := false }] 1] =
      true := by
  refine ⟨by decide, by decide, by decide⟩

/-- The operations of the binding lifecycle whose sequences claim C2 ranges
over: create (with the host-chosen fresh id and clock), open (with the id of
the window the host creates), window close, and the startup reap. -/
inductive WsOp where
  | create (data : CreateData) (newId : String) (now : Nat)
  | openWs (workspaceId : String) (newWinId : Nat)
  | closeWin (windowId : Nat)
  | reap
deriving DecidableEq, Repr

/-- Run one lifecycle operation on the engine state. -/
def applyOp (op : WsOp) (st : EngineState) : EngineState :=
  match op with
  | WsOp.create d newId now => (createWorkspace d newId now st).1
  | WsOp.openWs ws win => (openWorkspace ws win st).1
  | WsOp.closeWin w => handleWindowRemoved w st
  | WsOp.reap => cleanupStaleBindings st

/-- Run a sequence of lifecycle operations, left to right. -/
def applyOps (ops : List WsOp) (st : EngineState) : EngineState :=
  ops.foldl (fun s op => applyOp op s) st

/-- The host-side condition under which an operation is issued: a
create-from-current-window request carries the id of a live window (the
caller passes the id of the window it runs in). -/
def opOk (st : EngineState) : WsOp → Bool
  | WsOp.create d _ _ =>
    match effectiveWindow d with
    | some w => st.windows.any (fun win => win.id == w)
    | none => true
  | _ => true

/-- All operations of a sequence are issued under their host-side condition,
each evaluated in the state the previous ones produced. -/
def opsOk (st : EngineState) : List WsOp → Bool
  | [] => true
  | op :: rest => opOk st op && opsOk (applyOp op st) rest

/-- Well-formedness of the binding table: window keys are unique (each
window maps to at most one workspace id) and every key refers to a live
window. -/
def bindingsWF (st : EngineState) : Prop :=
  (st.windowBindings.map Prod.fst).Nodup ∧
  ∀ p ∈ st.windowBindings, ∃ win ∈ st.windows, win.id = p.1

instance (st : EngineState) : Decidable (bindingsWF st) := by
  unfold bindingsWF
  infer_instance

theorem openNewWindow_wf (ws : String) (win : Nat) (st : EngineState)
    (hwf : bindingsWF st) : bindingsWF (openNewWindow ws win st).1 := by
  obtain ⟨hnd, hlive⟩ := hwf
  refine ⟨alSet_keys_nodup _ _ _ hnd, ?_⟩
  intro p hp
  rcases mem_alSet hp with h | h
  · subst h
    exact ⟨{ id := win, tabs := openedWindowTabs ws st },
      List.mem_append_right _ (List.mem_cons_self _ _), rfl⟩
  · rcases hlive p h with ⟨v, hv, hvid⟩
    exact ⟨v, List.mem_append_left _ hv, hvid⟩

theorem applyOp_preserves_wf (op : WsOp) (st : EngineState)
    (hwf : bindingsWF st) (hok : opOk st op = true) : bindingsWF (applyOp op st) := by
  obtain ⟨hnd, hlive⟩ := hwf
  cases op with
  | create d newId now =>
    show bindingsWF (createWorkspace d newId now st).1
    cases hew : effectiveWindow d with
    | none =>
      have hb : (createWorkspace d newId now st).1.windowBindings = st.windowBindings := by
        simp only [createWorkspace, hew]
      have hw : (createWorkspace d newId now st).1.windows = st.windows := by
        simp only [createWorkspace, hew]
      refine ⟨?_, ?_⟩
      · rw [hb]
        exact hnd
      · intro p hp
        rw [hb] at hp
        rw [hw]
        exact hlive p hp
    | some w =>
      have hb : (createWorkspace d newId now st).1.windowBindings =
          alSet st.windowBindings w newId := by
        simp only [createWorkspace, hew]
      have hw : (createWorkspace d newId now st).1.windows = st.windows := by
        simp only [createWorkspace, hew]
      have hlw : ∃ win ∈ st.windows, win.id = w := by
        simp only [opOk, hew, List.any_eq_true, beq_iff_eq] at hok
        exact hok
      refine ⟨?_, ?_⟩
      · rw [hb]
        exact alSet_keys_nodup _ _ _ hnd
      · intro p hp
        rw [hb] at hp
        rw [hw]
        rcases mem_alSet hp with h | h
        · subst h
          exact hlw
        · exact hlive p h
  | openWs ws win =>
    show bindingsWF (openWorkspace ws win st).1
    cases hf : st.workspaceIndex.find? (fun x => x.id == ws) with
    | none =>
      have he : (openWorkspace ws win st).1 = st := by
        simp [openWorkspace, hf]
      rw [he]
      exact ⟨hnd, hlive⟩
    | some wsrec =>
      cases hfb : st.windowBindings.find? (fun p => p.2 == ws) with
      | some p =>
        by_cases hfocus :
            (st.focusExistingWindow && st.windows.any (fun w => w.id == p.1)) = true
        · have he : (openWorkspace ws win st).1 = st := by
            simp [openWorkspace, hf, hfb, hfocus]
          rw [he]
          exact ⟨hnd, hlive⟩
        · have he : (openWorkspace ws win st).1 = (openNewWindow ws win st).1 := by
            simp [openWorkspace, hf, hfb, hfocus]
          rw [he]
          exact openNewWindow_wf ws win st ⟨hnd, hlive⟩
      | none =>
        have he : (openWorkspace ws win st).1 = (openNewWindow ws win st).1 := by
          simp [openWorkspace, hf, hfb]
        rw [he]
        exact openNewWindow_wf ws win st ⟨hnd, hlive⟩
  | closeWin w =>
    show bindingsWF (handleWindowRemoved w st)
    by_cases hs : (alGet st.windowBindings w).isSome = true
    · have he : handleWindowRemoved w st =
          { st with windows := st.windows.filter (fun x => x.id != w),
                    windowBindings := st.windowBindings.filter (fun p => p.1 != w) } := by
        simp [handleWindowRemoved, hs]
      rw [he]
      refine ⟨filter_keys_nodup _ _ hnd, ?_⟩
      intro p hp
      have hp' := List.mem_filter.mp hp
      rcases hlive p hp'.1 with ⟨v, hv, hvid⟩
      have hpw : p.1 ≠ w := by simpa using hp'.2
      refine ⟨v, List.mem_filter.mpr ⟨hv, ?_⟩, hvid⟩
      simpa [hvid] using hpw
    · have he : handleWindowRemoved w st =
          { st with windows := st.windows.filter (fun x => x.id != w) } := by
        simp [handleWindowRemoved, hs]
      rw [he]
      refine ⟨hnd, ?_⟩
      intro p hp
      rcases hlive p hp with ⟨v, hv, hvid⟩
      have hpw : p.1 ≠ w := by
        intro hewq
        apply hs
        have hsome := alGet_isSome_of_mem hp
        rw [hewq] at hsome
        exact hsome
      refine ⟨v, List.mem_filter.mpr ⟨hv, ?_⟩, hvid⟩
      simpa [hvid] using hpw
  | reap =>
    show bindingsWF (cleanupStaleBindings st)
    refine ⟨filter_keys_nodup _ _ hnd, ?_⟩
    intro p hp
    have hp' := List.mem_filter.mp hp
    rcases List.any_eq_true.mp hp'.2 with ⟨v, hv, hvid⟩
    exact ⟨v, hv, by simpa using hvid⟩

/-- C2 (amended): after every sequence of create, open, window-close, and
startup-reap operations (each create-from-window referring to a live
window), the binding table still maps each window to at most one workspace
id (its window keys stay unique) and contains no key for a window that is
not currently live.  The original claim's further assertion — that no two
live windows are ever bound to the same workspace id — is false on the
code: see the counterexample, in which opening an already-bound workspace
with `focusExistingWindow` disabled binds a second live window to it. -/
theorem binding_table_wf_invariant (ops : List WsOp) (st : EngineState)
    (hwf : bindingsWF st) (hok : opsOk st ops = true) :
    bindingsWF (applyOps ops st) := by
  induction ops generalizing st with
  | nil => exact hwf
  | cons op rest ih =>
    simp only [opsOk, Bool.and_eq_true] at hok
    exact ih (applyOp op st) (applyOp_preserves_wf op st hwf hok.1) hok.2

/-- Closed instantiation of the C2 theorem on a concrete open/close/reap
sequence starting from the sample store. -/
theorem binding_table_wf_invariant_witness :
    bindingsWF (applyOps [WsOp.openWs "W" 1, WsOp.closeWin 1, WsOp.reap] sampleStore) :=
  binding_table_wf_invariant [WsOp.openWs "W" 1, WsOp.closeWin 1, WsOp.reap] sampleStore
    (by decide) (by decide)

/-- C2 counterexample: starting from the well-formed `sampleStore` (where
`focusExistingWindow` is disabled), two legitimate open operations for the
same workspace leave two distinct live windows (ids 1 and 2) both bound to
workspace `W`, refuting the claimed binding uniqueness across live windows. -/
theorem binding_uniqueness_counterexample :
    bindingsWF sampleStore ∧
    opsOk sampleStore [WsOp.openWs "W" 1, WsOp.openWs "W" 2] = true ∧
    (applyOps [WsOp.openWs "W" 1, WsOp.openWs "W" 2] sampleStore).windowBindings =
      [(1, "W"), (2, "W")] ∧
    (applyOps [WsOp.openWs "W" 1, WsOp.openWs "W" 2] sampleStore).windows.map Window.id =
      [1, 2] := by
  refine ⟨by decide, by decide, by decide, by decide⟩

end WorkspaceExt
